import Mathlib

/-!
Verification of the Rapido BI star-schema pipeline
(scripts/power_bi_data_preparation.py, scripts/quick_analysis.py,
scripts/comprehensive_bi_analysis.py) against its specification.

Numbers are modelled as rationals. Pandas/NumPy float division by zero
does not raise: it yields IEEE infinities or NaN. `PFloat` captures those
outcomes so that the pipeline's division expressions can be embedded
faithfully.
-/

namespace RapidoBI

/-- Outcome of a pandas/NumPy float computation over exact rational data:
either a finite value, or one of the IEEE non-finite sentinels. -/
inductive PFloat where
  | val (q : ℚ)
  | inf
  | neginf
  | nan
deriving DecidableEq, Repr

/-- Pandas/NumPy division of finite floats: `b ≠ 0` gives the quotient,
division of a nonzero numerator by zero gives a signed infinity, `0/0`
gives NaN. No exception is ever raised. -/
def pdiv (a b : ℚ) : PFloat :=
  if b ≠ 0 then PFloat.val (a / b)
  else if 0 < a then PFloat.inf
  else if a < 0 then PFloat.neginf
  else PFloat.nan

/-- True when the result is one of the IEEE sentinels (inf, neginf, NaN)
rather than a finite value. -/
def PFloat.isSentinel : PFloat → Bool
  | PFloat.val _ => false
  | _ => true

/-- One source ride record (one row of Dataset.csv after loading),
restricted to the fields the verified claims touch. Dates are serial
day numbers. -/
structure Ride where
  ride_id : ℕ
  date : ℕ
  hour : ℤ
  vehicle_type : String
  from_location : String
  to_location : String
  weather_condition : String
  weather_main : String
  weather_description : String
  distance_km : ℚ
  base_price : ℚ
  final_price : ℚ
  surge_multiplier : ℚ
  waiting_time_minutes : ℚ
deriving DecidableEq, Repr

/-- Fact-table measure from `create_fact_table`:
fact_table[price_per_km] = final_price / distance_km (pandas division). -/
def price_per_km (r : Ride) : PFloat :=
  pdiv r.final_price r.distance_km

/-- Fact-table measure from `create_fact_table`:
surge_amount = final_price - base_price. -/
def surge_amount (r : Ride) : ℚ :=
  r.final_price - r.base_price

/-- `get_time_period` from `create_hour_dimension`
(identical to `categorize_time_period` in comprehensive_bi_analysis.py):
a chain of half-open range tests with a catch-all else branch. -/
def get_time_period (hour : ℤ) : String :=
  if 0 ≤ hour ∧ hour < 6 then "Late Night"
  else if 6 ≤ hour ∧ hour < 8 then "Early Morning"
  else if 8 ≤ hour ∧ hour < 10 then "Morning Rush"
  else if 10 ≤ hour ∧ hour < 12 then "Late Morning"
  else if 12 ≤ hour ∧ hour < 14 then "Lunch Time"
  else if 14 ≤ hour ∧ hour < 17 then "Afternoon"
  else if 17 ≤ hour ∧ hour < 19 then "Evening Rush"
  else if 19 ≤ hour ∧ hour < 22 then "Evening"
  else "Night"

/-- The nine time-period labels of the spec's fixed bin table. -/
def timePeriodLabels : List String :=
  ["Late Night", "Early Morning", "Morning Rush", "Late Morning",
   "Lunch Time", "Afternoon", "Evening Rush", "Evening", "Night"]

/-- pandas DataFrame.drop_duplicates: keeps the first occurrence of each
value, in order of first appearance. -/
def drop_duplicates {α : Type} [DecidableEq α] : List α → List α
  | [] => []
  | a :: l => a :: (drop_duplicates l).filter (fun b => decide (b ≠ a))

/-- hour_category from `create_hour_dimension`: pd.cut with bins
[-1, 6, 12, 18, 24], which are right-closed intervals
(-1,6], (6,12], (12,18], (18,24]. -/
def hour_category (h : ℕ) : String :=
  if h ≤ 6 then "Night"
  else if h ≤ 12 then "Morning"
  else if h ≤ 18 then "Afternoon"
  else "Evening"

/-- One row of the hour dimension table built by `create_hour_dimension`. -/
structure HourRow where
  hour : ℕ
  time_period : String
  is_business_hour : Bool
  is_rush_hour : Bool
  is_peak_demand : Bool
  hour_category : String
deriving DecidableEq, Repr

/-- Row constructor matching the per-hour column assignments of
`create_hour_dimension`: time_period via get_time_period,
is_business_hour via between(9, 18), is_rush_hour via isin([8,9,17,18]),
is_peak_demand via isin([8,9,17,18,19]), hour_category via pd.cut. -/
def mkHourRow (h : ℕ) : HourRow :=
  ⟨h, get_time_period (h : ℤ), decide (9 ≤ h ∧ h ≤ 18),
   decide (h ∈ ([8, 9, 17, 18] : List ℕ)),
   decide (h ∈ ([8, 9, 17, 18, 19] : List ℕ)), hour_category h⟩

/-- `create_hour_dimension`: one row per hour of list(range(24)). -/
def create_hour_dimension : List HourRow :=
  (List.range 24).map mkHourRow

/-- `categorize_weather_impact` from `create_weather_dimension`. -/
def categorize_weather_impact (condition : String) : String :=
  if condition = "Rain" ∨ condition = "Thunderstorm" then "High Impact"
  else if condition = "Clouds" ∨ condition = "Haze" then "Medium Impact"
  else if condition = "Clear" then "Low Impact"
  else "Unknown"

/-- `get_weather_severity` from `create_weather_dimension`:
severity_map.get(condition, 0). -/
def get_weather_severity (condition : String) : ℕ :=
  if condition = "Clear" then 1
  else if condition = "Clouds" then 2
  else if condition = "Haze" then 3
  else if condition = "Rain" then 4
  else if condition = "Thunderstorm" then 5
  else 0

/-- `get_expected_surge` from `create_weather_dimension`:
surge_map.get(condition, 1.0). -/
def get_expected_surge (condition : String) : ℚ :=
  if condition = "Clear" then 11 / 10
  else if condition = "Clouds" then 13 / 10
  else if condition = "Haze" then 14 / 10
  else if condition = "Rain" then 18 / 10
  else if condition = "Thunderstorm" then 22 / 10
  else 1

/-- One row of the weather dimension table. -/
structure WeatherRow where
  weather_condition : String
  weather_main : String
  weather_description : String
  impact_category : String
  severity_score : ℕ
  expected_surge_multiplier : ℚ
deriving DecidableEq, Repr

/-- Enrichment of one deduplicated
(weather_condition, weather_main, weather_description) triple with the
three lookup functions, as applied column-wise in
`create_weather_dimension`. -/
def mkWeatherRow (t : String × String × String) : WeatherRow :=
  ⟨t.1, t.2.1, t.2.2, categorize_weather_impact t.1,
   get_weather_severity t.1, get_expected_surge t.1⟩

/-- `create_weather_dimension`:
df[[weather_condition, weather_main, weather_description]].drop_duplicates()
followed by the per-row lookup enrichment. The deduplication key is the
full triple, not the condition alone. -/
def create_weather_dimension (rides : List Ride) : List WeatherRow :=
  (drop_duplicates (rides.map
    (fun r => (r.weather_condition, r.weather_main, r.weather_description)))).map
    mkWeatherRow

/-- Two rides sharing the weather condition "Rain" but with different
weather descriptions ("light rain" vs "heavy rain"). -/
def rainVariantRides : List Ride :=
  [⟨1, 0, 8, "bike", "A", "B", "Rain", "Rain", "light rain",
    5, 50, 80, 16 / 10, 4⟩,
   ⟨2, 0, 9, "auto", "A", "B", "Rain", "Rain", "heavy rain",
    5, 50, 90, 18 / 10, 4⟩]

/-- A single ride whose weather condition "Snow" is outside the lookup
tables of `create_weather_dimension`. -/
def snowRide : Ride :=
  ⟨7, 0, 11, "cab", "A", "B", "Snow", "Snow", "light snow",
   8, 60, 70, 1, 6⟩

/-- The date column of the ride collection. -/
def dates (rides : List Ride) : List ℕ :=
  rides.map Ride.date

/-- df[date].min() — fold of Nat.min over the column (0 on empty input,
where pandas would give NaT; the claims only use non-empty input). -/
def min_date : List ℕ → ℕ
  | [] => 0
  | a :: l => l.foldl Nat.min a

/-- df[date].max() — fold of Nat.max over the column. -/
def max_date : List ℕ → ℕ
  | [] => 0
  | a :: l => l.foldl Nat.max a

/-- pd.date_range(start, end, freq=D): every day from lo to hi
inclusive. -/
def date_range (lo hi : ℕ) : List ℕ :=
  (List.range (hi + 1 - lo)).map (fun k => lo + k)

/-- `create_time_dimension` of power_bi_data_preparation.py: one row per
day of pd.date_range(df.date.min(), df.date.max()). Only the date key is
modelled; the claims touch no other column. -/
def create_time_dimension (rides : List Ride) : List ℕ :=
  date_range (min_date (dates rides)) (max_date (dates rides))

/-- time_dim of quick_analysis.py:
df[[date, month, quarter, day_of_week, is_weekend]].drop_duplicates().
The four extra columns are functions of the date, so the deduplicated
rows are in bijection with the distinct observed dates; the date keys
are modelled. -/
def quick_time_dim (rides : List Ride) : List ℕ :=
  drop_duplicates (dates rides)

/-- KPI total_revenue = df[final_price].sum(). -/
def total_revenue (rides : List Ride) : ℚ :=
  (rides.map Ride.final_price).sum

/-- total_base_revenue = df[base_price].sum(). -/
def total_base_revenue (rides : List Ride) : ℚ :=
  (rides.map Ride.base_price).sum

/-- surge_revenue = total_revenue - total_base_revenue. -/
def surge_revenue (rides : List Ride) : ℚ :=
  total_revenue rides - total_base_revenue rides

/-- surge_contribution_pct = (surge_revenue / total_revenue) * 100.
Division is exact here; the claims evaluate it only at nonzero total
revenue. -/
def surge_contribution_pct (rides : List Ride) : ℚ :=
  surge_revenue rides / total_revenue rides * 100

/-- is_rush_hour of comprehensive_bi_analysis.py and quick_analysis.py:
(8 ≤ hour ≤ 9) or (17 ≤ hour ≤ 18). -/
def is_rush_hour (h : ℤ) : Bool :=
  decide ((8 ≤ h ∧ h ≤ 9) ∨ (17 ≤ h ∧ h ≤ 18))

/-- Number of rides flagged is_rush_hour:
len(df[df.is_rush_hour]). -/
def rush_hour_trip_count (rides : List Ride) : ℕ :=
  (rides.filter (fun r => is_rush_hour r.hour)).length

/-- PFloat division, extending pdiv to the IEEE sentinels. -/
def PFloat.div : PFloat → PFloat → PFloat
  | PFloat.nan, _ => PFloat.nan
  | _, PFloat.nan => PFloat.nan
  | PFloat.inf, PFloat.inf => PFloat.nan
  | PFloat.inf, PFloat.neginf => PFloat.nan
  | PFloat.neginf, PFloat.inf => PFloat.nan
  | PFloat.neginf, PFloat.neginf => PFloat.nan
  | PFloat.inf, PFloat.val b =>
      if 0 ≤ b then PFloat.inf else PFloat.neginf
  | PFloat.neginf, PFloat.val b =>
      if 0 ≤ b then PFloat.neginf else PFloat.inf
  | PFloat.val _, PFloat.inf => PFloat.val 0
  | PFloat.val _, PFloat.neginf => PFloat.val 0
  | PFloat.val a, PFloat.val b => pdiv a b

/-- pandas Series.mean(): NaN on an empty series, else the exact mean. -/
def series_mean (l : List ℚ) : PFloat :=
  if l = [] then PFloat.nan else PFloat.val (l.sum / l.length)

/-- df[df.weather_condition == Clear]. -/
def clear_rides (rides : List Ride) : List Ride :=
  rides.filter (fun r => r.weather_condition == "Clear")

/-- df[df.weather_condition == Rain]. -/
def rain_rides (rides : List Ride) : List Ride :=
  rides.filter (fun r => r.weather_condition == "Rain")

/-- KPI rain_vs_clear_multiplier of calculate_all_kpis:
rain_rides.surge_multiplier.mean() / clear_rides.surge_multiplier.mean()
if len(clear_rides) > 0 else 0. -/
def rain_vs_clear_multiplier (rides : List Ride) : PFloat :=
  if 0 < (clear_rides rides).length then
    PFloat.div
      (series_mean ((rain_rides rides).map Ride.surge_multiplier))
      (series_mean ((clear_rides rides).map Ride.surge_multiplier))
  else PFloat.val 0

/-- The spec's 3-ride example:
(base=100, final=120, distance=10, hour=8),
(base=100, final=100, distance=5, hour=14),
(base=50, final=90, distance=0, hour=18). -/
def exampleRides : List Ride :=
  [⟨1, 0, 8, "bike", "A", "B", "Clear", "Clear", "sky",
    10, 100, 120, 12 / 10, 5⟩,
   ⟨2, 0, 14, "auto", "A", "B", "Clear", "Clear", "sky",
    5, 100, 100, 1, 5⟩,
   ⟨3, 0, 18, "cab", "A", "B", "Rain", "Rain", "rain",
    0, 50, 90, 18 / 10, 5⟩]

/-- Two rides on days 0 and 2, leaving day 1 with no rides. -/
def gapRides : List Ride :=
  [⟨1, 0, 9, "bike", "A", "B", "Clear", "Clear", "sky", 4, 40, 50, 1, 3⟩,
   ⟨2, 2, 10, "auto", "B", "C", "Clear", "Clear", "sky", 6, 60, 70, 1, 3⟩]

/-- One rain ride (surge 3) and one clear ride (surge 2). -/
def mixedWeatherRides : List Ride :=
  [⟨1, 0, 8, "bike", "A", "B", "Rain", "Rain", "light rain",
    5, 50, 80, 3, 4⟩,
   ⟨2, 0, 9, "auto", "A", "B", "Clear", "Clear", "sky",
    5, 50, 60, 2, 4⟩]

/-- drop_duplicates never loses a value: anything in the input list is
still present afterwards. -/
theorem mem_drop_duplicates {α : Type} [DecidableEq α] {a : α} :
    ∀ {l : List α}, a ∈ l → a ∈ drop_duplicates l := by
  intro l
  induction l with
  | nil => intro h; exact absurd h (List.not_mem_nil a)
  | cons x l ih =>
    intro h
    by_cases hax : a = x
    · exact hax ▸ List.mem_cons_self a _
    · have hal : a ∈ l := by
        rcases List.mem_cons.mp h with h1 | h1
        · exact absurd h1 hax
        · exact h1
      exact List.mem_cons_of_mem x
        (List.mem_filter.mpr ⟨ih hal, by simpa using hax⟩)

/-- Folding Nat.min never exceeds the initial accumulator. -/
theorem foldl_min_le_init : ∀ (l : List ℕ) (a : ℕ), l.foldl Nat.min a ≤ a
  | [], _ => Nat.le_refl _
  | b :: l, a =>
    Nat.le_trans (foldl_min_le_init l (Nat.min a b)) (Nat.min_le_left a b)

/-- Folding Nat.min is below every list element. -/
theorem foldl_min_le_mem :
    ∀ (l : List ℕ) (a d : ℕ), d ∈ l → l.foldl Nat.min a ≤ d
  | [], _, d, h => absurd h (List.not_mem_nil d)
  | b :: l, a, d, h => by
    rcases List.mem_cons.mp h with h1 | h1
    · subst h1
      exact Nat.le_trans (foldl_min_le_init l (Nat.min a d))
        (Nat.min_le_right a d)
    · exact foldl_min_le_mem l (Nat.min a b) d h1

/-- Folding Nat.max is at least the initial accumulator. -/
theorem init_le_foldl_max : ∀ (l : List ℕ) (a : ℕ), a ≤ l.foldl Nat.max a
  | [], _ => Nat.le_refl _
  | b :: l, a =>
    Nat.le_trans (Nat.le_max_left a b) (init_le_foldl_max l (Nat.max a b))

/-- Folding Nat.max is above every list element. -/
theorem mem_le_foldl_max :
    ∀ (l : List ℕ) (a d : ℕ), d ∈ l → d ≤ l.foldl Nat.max a
  | [], _, d, h => absurd h (List.not_mem_nil d)
  | b :: l, a, d, h => by
    rcases List.mem_cons.mp h with h1 | h1
    · subst h1
      exact Nat.le_trans (Nat.le_max_right a d)
        (init_le_foldl_max l (Nat.max a d))
    · exact mem_le_foldl_max l (Nat.max a b) d h1

/-- min_date is a lower bound on the date column. -/
theorem min_date_le_mem {l : List ℕ} {d : ℕ} (h : d ∈ l) :
    min_date l ≤ d := by
  cases l with
  | nil => exact absurd h (List.not_mem_nil d)
  | cons a l =>
    rcases List.mem_cons.mp h with h1 | h1
    · subst h1
      exact foldl_min_le_init l d
    · exact foldl_min_le_mem l a d h1

/-- max_date is an upper bound on the date column. -/
theorem mem_le_max_date {l : List ℕ} {d : ℕ} (h : d ∈ l) :
    d ≤ max_date l := by
  cases l with
  | nil => exact absurd h (List.not_mem_nil d)
  | cons a l =>
    rcases List.mem_cons.mp h with h1 | h1
    · subst h1
      exact init_le_foldl_max l d
    · exact mem_le_foldl_max l a d h1

/-- Every day between lo and hi inclusive appears in date_range. -/
theorem mem_date_range {lo hi d : ℕ} (h1 : lo ≤ d) (h2 : d ≤ hi) :
    d ∈ date_range lo hi := by
  unfold date_range
  exact List.mem_map.mpr ⟨d - lo, List.mem_range.mpr (by omega), by omega⟩

/-- Every member of date_range lies between lo and hi inclusive. -/
theorem date_range_mem_bounds {lo hi d : ℕ} (hd : d ∈ date_range lo hi) :
    lo ≤ d ∧ d ≤ hi := by
  unfold date_range at hd
  obtain ⟨k, hk, hkd⟩ := List.mem_map.mp hd
  have hkr := List.mem_range.mp hk
  omega

/-- date_range has no duplicate days. -/
theorem date_range_nodup (lo hi : ℕ) : (date_range lo hi).Nodup := by
  unfold date_range
  exact List.Nodup.map (fun a b h => Nat.add_left_cancel h)
    (List.nodup_range _)

/-- date_range enumerates hi + 1 - lo days. -/
theorem date_range_length (lo hi : ℕ) :
    (date_range lo hi).length = hi + 1 - lo := by
  unfold date_range
  simp

/-- The sum of per-ride surge amounts is the difference of the two
column sums. -/
theorem sum_surge_amount_eq (l : List Ride) :
    (l.map surge_amount).sum
      = (l.map Ride.final_price).sum - (l.map Ride.base_price).sum := by
  induction l with
  | nil => simp
  | cons r l ih =>
    simp only [List.map_cons, List.sum_cons, surge_amount, ih]
    ring

/-- C2: for every ride row, price-per-distance is the pandas division
final/distance: at distance = 0 it is an IEEE sentinel (inf or NaN) and
no exception is raised; at distance ≠ 0 it is the finite quotient. -/
theorem C2_price_per_km_div_guard (r : Ride) :
    (r.distance_km = 0 → (price_per_km r).isSentinel = true) ∧
    (r.distance_km ≠ 0 →
      price_per_km r = PFloat.val (r.final_price / r.distance_km)) := by
  constructor
  · intro h0
    unfold price_per_km pdiv
    rw [if_neg (by simp [h0])]
    split_ifs <;> rfl
  · intro hne
    unfold price_per_km pdiv
    rw [if_pos hne]

/-- Witness for C2 at two concrete rides: the spec's example third ride
(base=50, final=90, distance=0) yields a sentinel, and a ride with
distance 10 and final 120 yields the finite quotient 12. -/
theorem C2_price_per_km_div_guard_witness :
    (price_per_km ⟨3, 0, 18, "bike", "A", "B", "Clear", "Clear", "sky",
        0, 50, 90, 1, 5⟩).isSentinel = true ∧
    price_per_km ⟨1, 0, 8, "bike", "A", "B", "Clear", "Clear", "sky",
        10, 100, 120, 1, 5⟩ = PFloat.val 12 := by
  constructor
  · exact (C2_price_per_km_div_guard _).1 rfl
  · have h := (C2_price_per_km_div_guard
      ⟨1, 0, 8, "bike", "A", "B", "Clear", "Clear", "sky",
        10, 100, 120, 1, 5⟩).2 (by norm_num)
    rw [h]
    norm_num

/-- C3 counterexample: the claim says hour 24 and hour −1 fail with an
InvalidInput error; in the code both fall into the final else branch and
return the ordinary label "Night" (a member of the label set). -/
theorem C3_out_of_range_returns_label :
    get_time_period 24 = "Night" ∧ get_time_period (-1) = "Night" ∧
    "Night" ∈ timePeriodLabels := by
  refine ⟨by decide, by decide, by decide⟩

/-- C3 amended: for every hour outside [0,23] the categorizer does not
fail; it returns the catch-all label "Night". -/
theorem C3_out_of_range_catch_all (hour : ℤ)
    (h : hour < 0 ∨ 23 < hour) :
    get_time_period hour = "Night" := by
  unfold get_time_period
  split_ifs <;> first | rfl | omega

/-- Witness for C3 amended at hour = 24 and hour = −1. -/
theorem C3_out_of_range_catch_all_witness :
    get_time_period 24 = "Night" ∧ get_time_period (-1) = "Night" :=
  ⟨C3_out_of_range_catch_all 24 (Or.inr (by norm_num)),
   C3_out_of_range_catch_all (-1) (Or.inl (by norm_num))⟩

/-- C4: every hour in [0,23] gets exactly one of the nine labels of the
fixed bin table, hour 0 maps to "Late Night" and hour 23 to "Night". -/
theorem C4_time_period_total_on_range (hour : ℤ)
    (h0 : 0 ≤ hour) (h23 : hour ≤ 23) :
    get_time_period hour ∈ timePeriodLabels ∧
    get_time_period 0 = "Late Night" ∧
    get_time_period 23 = "Night" := by
  refine ⟨?_, by decide, by decide⟩
  interval_cases hour <;> decide

/-- Witness for C4 at hour = 0. -/
theorem C4_time_period_total_on_range_witness :
    get_time_period 0 ∈ timePeriodLabels ∧
    get_time_period 0 = "Late Night" ∧
    get_time_period 23 = "Night" :=
  C4_time_period_total_on_range 0 (by norm_num) (by norm_num)

/-- C1: evaluation of `create_weather_dimension` at the failing input.
On two rides that share the weather condition "Rain" but carry two
description variants, the dimension table has 2 rows while the fact
table has exactly 1 distinct weather-condition string: deduplication on
the (condition, main, description) triple violates
len(dim) == len(set(fact.weather_condition)). -/
theorem C1_weather_dim_dedup_on_triple :
    (create_weather_dimension rainVariantRides).length = 2 ∧
    (drop_duplicates (rainVariantRides.map Ride.weather_condition)).length
      = 1 ∧
    (create_weather_dimension rainVariantRides).map
      WeatherRow.weather_condition = ["Rain", "Rain"] := by
  refine ⟨rfl, rfl, rfl⟩

/-- C6: the hour dimension has exactly 24 rows with hour keys 0..23 in
order, and the rows flagged is_rush_hour are exactly those with hour in
{8, 9, 17, 18}. -/
theorem C6_hour_dimension_shape_and_rush :
    create_hour_dimension.length = 24 ∧
    create_hour_dimension.map HourRow.hour = List.range 24 ∧
    (create_hour_dimension.filter HourRow.is_rush_hour).map HourRow.hour
      = [8, 9, 17, 18] := by
  refine ⟨rfl, rfl, rfl⟩

/-- C9: the coarse 4-bucket categorization is right-closed — boundary
hours 6, 12, 18 fall in the lower bucket (Night, Morning, Afternoon) and
hours 7, 13, 19 open the next bucket — both for the raw function and for
the rows of the built hour dimension. -/
theorem C9_hour_category_right_closed :
    hour_category 6 = "Night" ∧ hour_category 7 = "Morning" ∧
    hour_category 12 = "Morning" ∧ hour_category 13 = "Afternoon" ∧
    hour_category 18 = "Afternoon" ∧ hour_category 19 = "Evening" ∧
    (create_hour_dimension.filter (fun r => r.hour == 6)).map
      HourRow.hour_category = ["Night"] ∧
    (create_hour_dimension.filter (fun r => r.hour == 12)).map
      HourRow.hour_category = ["Morning"] ∧
    (create_hour_dimension.filter (fun r => r.hour == 18)).map
      HourRow.hour_category = ["Afternoon"] := by
  refine ⟨rfl, rfl, rfl, rfl, rfl, rfl, rfl, rfl, rfl⟩

/-- C10: the weather dimension is total over arbitrary condition
strings — every ride whose condition is outside
{Clear, Clouds, Haze, Rain, Thunderstorm} still yields a dimension row,
with impact_category "Unknown", severity_score 0 and
expected_surge_multiplier 1.0. -/
theorem C10_unknown_condition_total (rides : List Ride) (r : Ride)
    (hr : r ∈ rides)
    (h1 : r.weather_condition ≠ "Clear")
    (h2 : r.weather_condition ≠ "Clouds")
    (h3 : r.weather_condition ≠ "Haze")
    (h4 : r.weather_condition ≠ "Rain")
    (h5 : r.weather_condition ≠ "Thunderstorm") :
    ∃ row ∈ create_weather_dimension rides,
      row.weather_condition = r.weather_condition ∧
      row.impact_category = "Unknown" ∧
      row.severity_score = 0 ∧
      row.expected_surge_multiplier = 1 := by
  refine ⟨mkWeatherRow
    (r.weather_condition, r.weather_main, r.weather_description),
    List.mem_map_of_mem mkWeatherRow
      (mem_drop_duplicates (List.mem_map_of_mem _ hr)), rfl, ?_, ?_, ?_⟩
  · simp [mkWeatherRow, categorize_weather_impact, h1, h2, h3, h4, h5]
  · simp [mkWeatherRow, get_weather_severity, h1, h2, h3, h4, h5]
  · simp [mkWeatherRow, get_expected_surge, h1, h2, h3, h4, h5]

/-- Witness for C10 at a concrete one-ride collection whose condition
"Snow" is unrecognized. -/
theorem C10_unknown_condition_total_witness :
    ∃ row ∈ create_weather_dimension [snowRide],
      row.weather_condition = snowRide.weather_condition ∧
      row.impact_category = "Unknown" ∧
      row.severity_score = 0 ∧
      row.expected_surge_multiplier = 1 :=
  C10_unknown_condition_total [snowRide] snowRide
    (List.mem_singleton.mpr rfl) (by decide) (by decide) (by decide)
    (by decide) (by decide)

/-- C5 counterexample: on a collection with rides on days 0 and 2 only,
the quick_analysis time dimension keeps just the two observed distinct
dates — day 1, which lies inside the inclusive min–max range, gets no
row, and the row count differs from the day count of the range. -/
theorem C5_quick_time_dim_misses_gap_day :
    min_date (dates gapRides) = 0 ∧ max_date (dates gapRides) = 2 ∧
    quick_time_dim gapRides = [0, 2] ∧
    1 ∉ quick_time_dim gapRides ∧
    (quick_time_dim gapRides).length
      ≠ max_date (dates gapRides) + 1 - min_date (dates gapRides) := by
  refine ⟨rfl, rfl, rfl, by decide, by decide⟩

/-- C5 amended: the star-schema builder `create_time_dimension` does
enumerate every calendar day of the inclusive min–max range — each day
in range has a row, every row is a day in range, no duplicates, row
count = max − min + 1, and every observed ride date has its row. -/
theorem C5_time_dimension_enumerates_range (rides : List Ride)
    (hne : rides ≠ []) :
    (∀ d : ℕ, min_date (dates rides) ≤ d → d ≤ max_date (dates rides) →
      d ∈ create_time_dimension rides) ∧
    (∀ d ∈ create_time_dimension rides,
      min_date (dates rides) ≤ d ∧ d ≤ max_date (dates rides)) ∧
    (create_time_dimension rides).Nodup ∧
    (create_time_dimension rides).length
      = max_date (dates rides) + 1 - min_date (dates rides) ∧
    (∀ r ∈ rides, r.date ∈ create_time_dimension rides) :=
  ⟨fun _ h1 h2 => mem_date_range h1 h2,
   fun _ hd => date_range_mem_bounds hd,
   date_range_nodup _ _,
   date_range_length _ _,
   fun r hr =>
     mem_date_range (min_date_le_mem (List.mem_map_of_mem Ride.date hr))
       (mem_le_max_date (List.mem_map_of_mem Ride.date hr))⟩

/-- Witness for C5 amended on the 2-ride gap collection: the rideless
day 1 gets a row and the dimension has 3 rows for the range 0..2. -/
theorem C5_time_dimension_enumerates_range_witness :
    1 ∈ create_time_dimension gapRides ∧
    (create_time_dimension gapRides).length = 3 := by
  constructor
  · exact (C5_time_dimension_enumerates_range gapRides (by decide)).1 1
      (by decide) (by decide)
  · have h :=
      (C5_time_dimension_enumerates_range gapRides (by decide)).2.2.2.1
    rw [h]
    decide

/-- C7: the KPI total_revenue is exactly the final_price column sum,
surge_contribution is Σ(final − base) / Σ(final) × 100, and on the
spec's 3-ride example total_revenue = 310, surge contribution
= 60/310 × 100 (≈ 19.35%), and 2 rides fall in rush hours. -/
theorem C7_kpi_totals_and_example (rides : List Ride) :
    total_revenue rides = (rides.map Ride.final_price).sum ∧
    surge_contribution_pct rides
      = (rides.map surge_amount).sum / (rides.map Ride.final_price).sum
        * 100 ∧
    total_revenue exampleRides = 310 ∧
    surge_contribution_pct exampleRides = 60 / 310 * 100 ∧
    rush_hour_trip_count exampleRides = 2 := by
  refine ⟨rfl, ?_,
    by norm_num [total_revenue, exampleRides],
    by norm_num [surge_contribution_pct, surge_revenue, total_revenue,
      total_base_revenue, exampleRides],
    by rfl⟩
  unfold surge_contribution_pct surge_revenue total_revenue
    total_base_revenue
  rw [sum_surge_amount_eq]

/-- C8: the rain-to-clear surge ratio KPI resolves to the sentinel 0
when no clear-weather rows exist, and otherwise (with rain rows present)
equals the pandas division of the two surge-multiplier means. -/
theorem C8_rain_vs_clear_guard (rides : List Ride) :
    (clear_rides rides = [] →
      rain_vs_clear_multiplier rides = PFloat.val 0) ∧
    (clear_rides rides ≠ [] → rain_rides rides ≠ [] →
      rain_vs_clear_multiplier rides
        = pdiv
            (((rain_rides rides).map Ride.surge_multiplier).sum
              / ((rain_rides rides).map Ride.surge_multiplier).length)
            (((clear_rides rides).map Ride.surge_multiplier).sum
              / ((clear_rides rides).map Ride.surge_multiplier).length)) := by
  constructor
  · intro h
    unfold rain_vs_clear_multiplier
    rw [if_neg]
    simp [h]
  · intro hc hr
    unfold rain_vs_clear_multiplier
    rw [if_pos (List.length_pos.mpr hc)]
    unfold series_mean
    rw [if_neg (by simpa [List.map_eq_nil_iff] using hr),
        if_neg (by simpa [List.map_eq_nil_iff] using hc)]
    rfl

/-- Witness for C8: a collection with no clear rides yields the
sentinel 0, and a collection with one rain ride (surge 3) and one clear
ride (surge 2) yields the finite ratio 3/2. -/
theorem C8_rain_vs_clear_guard_witness :
    rain_vs_clear_multiplier rainVariantRides = PFloat.val 0 ∧
    rain_vs_clear_multiplier mixedWeatherRides = PFloat.val (3 / 2) := by
  constructor
  · exact (C8_rain_vs_clear_guard rainVariantRides).1 rfl
  · have h := (C8_rain_vs_clear_guard mixedWeatherRides).2
      (by decide) (by decide)
    rw [h]
    have hrain : (rain_rides mixedWeatherRides).map Ride.surge_multiplier
        = [3] := rfl
    have hclear : (clear_rides mixedWeatherRides).map Ride.surge_multiplier
        = [2] := rfl
    rw [hrain, hclear]
    norm_num [pdiv]

end RapidoBI
